import Mathlib

/-!
Verification development for the LyricSensei song-search/analysis pipeline.

The definitions below are a shallow embedding of the server-side pipeline:
`server/lyricsApi.ts` (query parsing, source adapters, merge logic),
`server/routes.ts` (the HTTP route handlers), `server/storage.ts`
(the database facade), and the OpenAI adapter (`analyzeLyrics` /
`generateSongMeaning`).

External effects (network responses from Genius / lyrics.ovh / Last.fm /
MusicBrainz, language-model output, database write success) are modelled as
explicit parameters; everything the repository's own code computes is
translated directly.

JavaScript conventions used throughout the embedding:
* a nullable / possibly-`undefined` value is an `Option`;
* `a || b` is modelled with the `jsOr*` helpers below, which treat the
  empty string and the number 0 as falsy, exactly as JS does;
* object spread `{...a, ...b}` copies the keys present in `b` over `a`,
  including keys whose value is `undefined`;
* the JS string methods (`trim`, `split`, `join`, template literals) are
  modelled by structurally recursive functions over `List Char`, so that
  every definition evaluates inside the kernel.
-/

namespace LyricSensei

/-- JS truthiness of a nullable string: `null`/`undefined` and `""` are falsy. -/
def jsTruthyStr : Option String → Bool
  | none => false
  | some s => s ≠ ""

/-- JS truthiness of a nullable number (0 is falsy; `NaN` is modelled as `none`). -/
def jsTruthyNat : Option Nat → Bool
  | none => false
  | some n => n ≠ 0

/-- JS `a || b` where both sides are nullable strings. -/
def jsOrOptStr (a b : Option String) : Option String :=
  if jsTruthyStr a then a else b

/-- JS `a || b` where both sides are nullable numbers. -/
def jsOrOptNat (a b : Option Nat) : Option Nat :=
  if jsTruthyNat a then a else b

/-- JS `a || b` where `a` is a nullable string and `b` a string default. -/
def jsOrStr (a : Option String) (b : String) : String :=
  match a with
  | some s => if s = "" then b else s
  | none => b

/-- JS `a || b` where `a` is a nullable number and `b` a number default. -/
def jsOrNat (a : Option Nat) (b : Nat) : Nat :=
  match a with
  | some n => if n = 0 then b else n
  | none => b

/-- Character class of the JS regex `\s` and of the characters removed by
`String.prototype.trim` (approximated by Lean's `Char.isWhitespace`, which
covers space, tab, CR and LF — the whitespace occurring in search queries). -/
def isJsWs (c : Char) : Bool := c.isWhitespace

/-- JS `String.prototype.trim`: strip leading and trailing whitespace. -/
def jsTrim (s : String) : String :=
  String.mk (((s.toList.dropWhile isJsWs).reverse.dropWhile isJsWs).reverse)

/-- Segment-splitting core of JS `String.prototype.split` for a nonempty
separator `s0 :: srest`: leftmost, non-overlapping matches; `acc` is the
current segment accumulated in reverse.  The `fuel` argument only makes the
recursion structural (each step consumes at least one character, so any fuel
of at least the input length gives the fuel-independent JS behavior). -/
def splitSeg (s0 : Char) (srest : List Char) : Nat → List Char → List Char → List (List Char)
  | _, acc, [] => [acc.reverse]
  | 0, acc, l => [acc.reverse ++ l]
  | fuel + 1, acc, c :: cs =>
    if (s0 :: srest).isPrefixOf (c :: cs) then
      acc.reverse :: splitSeg s0 srest fuel [] (cs.drop srest.length)
    else
      splitSeg s0 srest fuel (c :: acc) cs

/-- JS `s.split(sep)` (the `sep = ""` case, unused by the source, splits into
single-character strings as JS does). -/
def jsSplit (s : String) (sep : String) : List String :=
  match sep.toList with
  | [] => s.toList.map fun c => String.mk [c]
  | s0 :: srest => (splitSeg s0 srest s.toList.length [] s.toList).map String.mk

/-- JS `parts.join(sep)`. -/
def jsJoin (sep : String) (parts : List String) : String :=
  String.mk (List.intercalate sep.toList (parts.map String.toList))

/-- Concatenation of string pieces (JS template literals / `+`). -/
def jsConcat (parts : List String) : String :=
  String.mk (parts.foldr (fun s acc => s.toList ++ acc) [])

/-- The `SongInfo` interface of `server/lyricsApi.ts`. -/
structure SongInfo where
  title : String
  artist : String
  genre : Option String
  year : Option Nat
  lyrics : Option String
deriving DecidableEq, Repr

/-- Return type of `parseQuery`: `{ artist: string | null; title: string | null }`.
Every return statement of the source sets `title` to an actual string, so it is
modelled as `String`; `artist` is `null` in the no-pattern fallback. -/
structure ParsedQuery where
  artist : Option String
  title : String
deriving DecidableEq, Repr

/-- Character class of the JS regex `.` (dot) without the `s` flag:
any character except line terminators. -/
def isDotChar (c : Char) : Bool :=
  ¬ (c = '\n' ∨ c = '\r' ∨ c = '\u2028' ∨ c = '\u2029')

/-- Greedy-with-backtracking tail of `\s+(.+)$` (and of `\s*(.+)` at end of
input): given the characters `rest` following the separator word and the
length `k` of whitespace the greedy `\s+`/`\s*` currently consumes, find the
largest `k` whose remaining suffix is a nonempty run of `.`-matchable
characters reaching the end of input. -/
def dotTailFrom (rest : List Char) : Nat → Option (List Char)
  | 0 =>
    match rest with
    | [] => none
    | _ => if rest.all isDotChar then some rest else none
  | k + 1 =>
    match rest.drop (k + 1) with
    | [] => dotTailFrom rest k
    | suffix =>
      if suffix.all isDotChar then some suffix else dotTailFrom rest k

/-- Matcher for the tail `\s+by\s+(.+)$` of the regex
`/^(.+?)\s+by\s+(.+)$/i` starting at the given character list; returns the
second capture group on success. -/
def byTail (cs : List Char) : Option (List Char) :=
  let w1 := (cs.takeWhile isJsWs).length
  if w1 = 0 then none
  else
    match cs.drop w1 with
    | b :: y :: rest =>
      if b.toLower = 'b' ∧ y.toLower = 'y' then
        let w2 := (rest.takeWhile isJsWs).length
        if w2 = 0 then none else dotTailFrom rest w2
      else none
    | _ => none

/-- The lazy first group of `/^(.+?)\s+by\s+(.+)$/i`: try split points left to
right; `acc` holds the (reversed) characters committed to group 1 so far. -/
def byScan (acc : List Char) : List Char → Option (List Char × List Char)
  | [] => none
  | c :: cs =>
    if isDotChar c then
      match byTail cs with
      | some g2 => some ((c :: acc).reverse, g2)
      | none => byScan (c :: acc) cs
    else none

/-- Model of `trimmed.match(/^(.+?)\s+by\s+(.+)$/i)`: on success returns
(group 1, group 2) as strings. -/
def byMatch (s : String) : Option (String × String) :=
  match byScan [] s.toList with
  | some (g1, g2) => some (String.mk g1, String.mk g2)
  | none => none

/-- Matcher for the tail `\s*\((.+?)\)$` of `/^(.+?)\s*\((.+?)\)$/` starting
at the given characters: maximal whitespace, an opening parenthesis, then the
inner group which must run to a closing parenthesis that ends the input. -/
def parenTail (cs : List Char) : Option (List Char) :=
  let w := (cs.takeWhile isJsWs).length
  match cs.drop w with
  | '(' :: inner =>
    match inner.getLast? with
    | some ')' =>
      let interior := inner.dropLast
      match interior with
      | [] => none
      | _ => if interior.all isDotChar then some interior else none
    | _ => none
  | _ => none

/-- The lazy first group of `/^(.+?)\s*\((.+?)\)$/`. -/
def parenScan (acc : List Char) : List Char → Option (List Char × List Char)
  | [] => none
  | c :: cs =>
    if isDotChar c then
      match parenTail cs with
      | some inner => some ((c :: acc).reverse, inner)
      | none => parenScan (c :: acc) cs
    else none

/-- Model of `trimmed.match(/^(.+?)\s*\((.+?)\)$/)`. -/
def parenMatch (s : String) : Option (String × String) :=
  match parenScan [] s.toList with
  | some (g1, g2) => some (String.mk g1, String.mk g2)
  | none => none

/-- `parseQuery` of `server/lyricsApi.ts`: ordered heuristics over the trimmed
query.  The JS guard `trimmed.includes(" - ")` together with
`parts.length >= 2` is equivalent to the split producing at least two parts,
which is how the first two branches are written here. -/
def parseQuery (query : String) : ParsedQuery :=
  let trimmed := jsTrim query
  match jsSplit trimmed " - " with
  | p0 :: p1 :: rest =>
    { artist := some (jsTrim p0), title := jsTrim (jsJoin " - " (p1 :: rest)) }
  | _ =>
    match jsSplit trimmed ": " with
    | q0 :: q1 :: rest =>
      { artist := some (jsTrim q0), title := jsTrim (jsJoin ": " (q1 :: rest)) }
    | _ =>
      match byMatch trimmed with
      | some (t, a) => { artist := some (jsTrim a), title := jsTrim t }
      | none =>
        match parenMatch trimmed with
        | some (t, a) => { artist := some (jsTrim a), title := jsTrim t }
        | none => { artist := none, title := trimmed }

/-- JS `parseInt(s)` (base 10) on the inputs the source feeds it (year strings
and numeric query parameters): skip leading whitespace, read a run of decimal
digits; no digits means `NaN`, modelled as `none`.  Sign and hex prefixes are
not modelled — no call site can receive them. -/
def parseIntNat (s : String) : Option Nat :=
  let digits := (s.toList.dropWhile isJsWs).takeWhile Char.isDigit
  match digits with
  | [] => none
  | _ => some (digits.foldl (fun n c => n * 10 + (c.toNat - '0'.toNat)) 0)

/-- First match of the JS regex `/\d{4}/` followed by `parseInt`: the value of
the first run of four consecutive decimal digits. -/
def findFourDigitRun : List Char → Option Nat
  | [] => none
  | a :: rest =>
    match rest with
    | b :: c :: d :: _ =>
      if a.isDigit ∧ b.isDigit ∧ c.isDigit ∧ d.isDigit then
        some ((((a.toNat - '0'.toNat) * 10 + (b.toNat - '0'.toNat)) * 10
          + (c.toNat - '0'.toNat)) * 10 + (d.toNat - '0'.toNat))
      else findFourDigitRun rest
    | _ => none

/-- The first hit of a Genius search response, as `searchGenius` reads it.
`some` models: access token configured, HTTP 2xx, nonempty `response.hits`;
`none` models any of the soft failures (missing token, error status, no hits,
thrown exception), all of which make `searchGenius` return `null`. -/
structure GeniusHit where
  title : String
  primaryArtistName : String
  releaseDateForDisplay : Option String
deriving DecidableEq, Repr

/-- The string `getGeniusLyrics` always returns (the source never scrapes real
lyrics; its `catch` arm is unreachable for this pure body). -/
def geniusPlaceholderLyrics : String :=
  "High-quality lyrics from Genius (lyrics extraction would require additional implementation)"

/-- `searchGenius` of `server/lyricsApi.ts`: first hit becomes a `SongInfo`;
the year is the first four-digit run of `release_date_for_display` (checked
for truthiness first); `lyrics` is always the placeholder string; `genre` is
never set by this adapter. -/
def searchGenius (hit : Option GeniusHit) : Option SongInfo :=
  match hit with
  | none => none
  | some h =>
    let year : Option Nat :=
      match h.releaseDateForDisplay with
      | some d => if d = "" then none else findFourDigitRun d.toList
      | none => none
    some { title := h.title, artist := h.primaryArtistName, genre := none,
           year := year, lyrics := some geniusPlaceholderLyrics }

/-- `searchLyricsOvh` of `server/lyricsApi.ts`.  `apiLyrics` is the `lyrics`
field of the lyrics.ovh response (`none` models a non-2xx response, a missing
field, or a thrown exception).  The adapter bails out when the parsed artist
or title is falsy, and when the returned lyrics are falsy. -/
def searchLyricsOvh (query : String) (apiLyrics : Option String) : Option SongInfo :=
  let p := parseQuery query
  match p.artist with
  | none => none
  | some artist =>
    if artist = "" ∨ p.title = "" then none
    else
      match apiLyrics with
      | none => none
      | some l =>
        if l = "" then none
        else some { title := p.title, artist := artist, genre := none,
                    year := none, lyrics := some l }

/-- `extractSongInfo` of `server/lyricsApi.ts`: the no-network fallback.  When
the parse cannot produce a truthy artist and title, the whole trimmed query
becomes the title and the artist defaults to "Unknown Artist".  Its `catch`
arm is unreachable (the body is pure), so the result is always `some`. -/
def extractSongInfo (query : String) : Option SongInfo :=
  let p := parseQuery query
  match p.artist with
  | none => some { title := jsTrim query, artist := "Unknown Artist",
                   genre := none, year := none, lyrics := none }
  | some artist =>
    if artist = "" ∨ p.title = "" then
      some { title := jsTrim query, artist := "Unknown Artist",
             genre := none, year := none, lyrics := none }
    else
      some { title := p.title, artist := artist, genre := none, year := none,
             lyrics := none }

/-- Result of `getLastFmTrackInfo` (the Enrichment Provider): genre from the
first top tag, year from the album attribute via `parseInt`.  `none` models a
missing API key, a non-2xx response, or a missing `track` object. -/
structure Enrichment where
  genre : Option String
  year : Option Nat
deriving DecidableEq, Repr

/-- The sentinel stored in `lyrics` when the Genius path found no lyric text:
`geniusResult.lyrics || "Lyrics not found"`. -/
def lyricsNotFoundSentinel : String := "Lyrics not found"

/-- The merge `searchSong` performs on the Genius path (lines 53-59 of
`server/lyricsApi.ts`):
`genre: lastFmData?.genre || geniusResult.genre`,
`year: lastFmData?.year || geniusResult.year`,
`lyrics: geniusResult.lyrics || "Lyrics not found"`. -/
def mergeGeniusWithLastFm (g : SongInfo) (lfm : Option Enrichment) : SongInfo :=
  { title := g.title
    artist := g.artist
    genre := jsOrOptStr (lfm.bind Enrichment.genre) g.genre
    year := jsOrOptNat (lfm.bind Enrichment.year) g.year
    lyrics := some (jsOrStr g.lyrics lyricsNotFoundSentinel) }

/-- The merge `searchSong` performs on the lyrics.ovh fallback path (lines
67-71): spread of the lyrics result with genre/year overridden by
`lastFmData?.genre || lyricsOvhResult.genre` (and year alike). -/
def mergeOvhWithLastFm (r : SongInfo) (lfm : Option Enrichment) : SongInfo :=
  { r with
    genre := jsOrOptStr (lfm.bind Enrichment.genre) r.genre
    year := jsOrOptNat (lfm.bind Enrichment.year) r.year }

/-- `searchSong` of `server/lyricsApi.ts`: Genius first (enriched with
Last.fm), then lyrics.ovh (enriched with Last.fm), then the pure
`extractSongInfo` fallback.  `lastFm` maps a (title, artist) pair to the
Enrichment Provider's response for it. -/
def searchSong (query : String) (geniusHit : Option GeniusHit)
    (ovhLyrics : Option String) (lastFm : String → String → Option Enrichment) :
    Option SongInfo :=
  match searchGenius geniusHit with
  | some geniusResult =>
    some (mergeGeniusWithLastFm geniusResult
      (lastFm geniusResult.title geniusResult.artist))
  | none =>
    match searchLyricsOvh query ovhLyrics with
    | some lyricsOvhResult =>
      some (mergeOvhWithLastFm lyricsOvhResult
        (lastFm lyricsOvhResult.title lyricsOvhResult.artist))
    | none => extractSongInfo query

/-- The first recording of a MusicBrainz search response, as `getSongDetails`
reads it.  `some` models: HTTP 2xx and nonempty `recordings`; `none` models a
non-2xx response or an empty `recordings` array (both reach the
`{title, artist}` fallback return, as does the `catch` arm). -/
structure MBRecording where
  title : Option String
  firstArtistCreditName : Option String
  firstReleaseDate : Option String
  firstTagName : Option String
deriving DecidableEq, Repr

/-- Return value of `getSongDetails` with its JS key set made explicit: the
MusicBrainz success path returns an object literal with `title`, `artist`,
`year` and `genre` keys (the latter two possibly holding `undefined`), while
both fallback returns carry only `title` and `artist`.  The distinction
matters because object spread copies present keys even when their value is
`undefined`. -/
inductive SongDetails where
  | found (title artist : String) (year : Option Nat) (genre : Option String)
  | basic (title artist : String)
deriving DecidableEq, Repr

/-- `getSongDetails` of `server/lyricsApi.ts` (the Canonical Metadata
Provider).  On a usable MusicBrainz recording: canonical title/artist fall
back to the inputs when falsy, the year is `parseInt` of the first four
characters of the first release date (guarded by truthiness), the genre is
the first tag name.  Otherwise the inputs are echoed. -/
def getSongDetails (title artist : String) (mb : Option MBRecording) : SongDetails :=
  match mb with
  | some r =>
    let year : Option Nat :=
      match r.firstReleaseDate with
      | some d => if d = "" then none else parseIntNat (String.mk (d.toList.take 4))
      | none => none
    SongDetails.found (jsOrStr r.title title) (jsOrStr r.firstArtistCreditName artist)
      year r.firstTagName
  | none => SongDetails.basic title artist

/-- The merge `const finalSongInfo = { ...songInfo, ...detailedInfo }` of
`server/routes.ts` line 44: keys present in `detailedInfo` override
`songInfo`, including keys holding `undefined`; `lyrics` is never a key of
`detailedInfo`, so it always survives. -/
def mergeSpread (s : SongInfo) : SongDetails → SongInfo
  | SongDetails.found t a y g =>
    { title := t, artist := a, genre := g, year := y, lyrics := s.lyrics }
  | SongDetails.basic t a =>
    { s with title := t, artist := a }

/-- The two AI-analysis strategies of the route handler. -/
inductive AnalysisVariant where
  | lyricsGrounded
  | metadataOnly
deriving DecidableEq, Repr

/-- The dispatch `if (finalSongInfo.lyrics)` of `server/routes.ts` line 49:
plain JS truthiness of the resolved song's `lyrics` field. -/
def chooseAnalysisVariant (s : SongInfo) : AnalysisVariant :=
  if jsTruthyStr s.lyrics then AnalysisVariant.lyricsGrounded
  else AnalysisVariant.metadataOnly

/-- A JavaScript value produced by `JSON.parse` (no `undefined`; objects from
`JSON.parse` carry distinct keys because later duplicates overwrite earlier
ones during parsing). -/
inductive Js where
  | null
  | bool (b : Bool)
  | num (n : Int)
  | str (s : String)
  | arr (elems : List Js)
  | obj (fields : List (String × Js))

/-- JS truthiness of a `Js` value (`NaN` is not modelled; no call site can
produce it). -/
def Js.truthy : Js → Bool
  | Js.null => false
  | Js.bool b => b
  | Js.num n => n ≠ 0
  | Js.str s => s ≠ ""
  | Js.arr _ => true
  | Js.obj _ => true

/-- JS property access `v.key` on a parsed JSON value: `undefined` (here
`none`) unless `v` is an object carrying the key. -/
def Js.getField (v : Js) (key : String) : Option Js :=
  match v with
  | Js.obj fields => fields.lookup key
  | _ => none

/-- JS `a || b` where `a` is a possibly-absent `Js` value and `b` a default. -/
def jsOrJs (a : Option Js) (b : Js) : Js :=
  match a with
  | some v => if v.truthy then v else b
  | none => b

/-- The object the lyrics-grounded variant builds from the parsed model
response (`server/openai.ts`, `analyzeLyrics`): each field defaulted exactly
as the source writes it.  The field values keep type `Js` because the JS
runtime passes non-string truthy values through unchanged. -/
structure LyricsAnalysisJs where
  meaning : Js
  themes : List Js
  mood : Js
  interpretation : Js

/-- Default-filling step of `analyzeLyrics`:
`result.meaning || "Unable to analyze the meaning of this song."`,
`Array.isArray(result.themes) ? result.themes : []`,
`result.mood || "Unknown"`,
`result.interpretation || "No additional interpretation available."`. -/
def fillDefaults (result : Js) : LyricsAnalysisJs :=
  { meaning := jsOrJs (result.getField "meaning")
      (Js.str "Unable to analyze the meaning of this song.")
    themes :=
      match result.getField "themes" with
      | some (Js.arr elems) => elems
      | _ => []
    mood := jsOrJs (result.getField "mood") (Js.str "Unknown")
    interpretation := jsOrJs (result.getField "interpretation")
      (Js.str "No additional interpretation available.") }

/-- Outcome of `analyzeLyrics`: either the defaulted analysis object, or the
`throw new Error("Failed to analyze lyrics: ...")` of the `catch` arm. -/
inductive AnalyzeOutcome where
  | ok (a : LyricsAnalysisJs)
  | failed

/-- `analyzeLyrics` of `server/openai.ts`.  `jsonParse` stands for the
JS runtime primitive `JSON.parse` (`none` = a thrown `SyntaxError`);
`llmContent` is the model call outcome: outer `none` models the OpenAI call
itself throwing, inner `Option String` is `response.choices[0].message.content`
(nullable).  The source computes
`JSON.parse(response.choices[0].message.content || "{}")` inside the `try`,
so a parse failure reaches the `catch` arm and is rethrown. -/
def analyzeLyrics (jsonParse : String → Option Js)
    (llmContent : Option (Option String)) : AnalyzeOutcome :=
  match llmContent with
  | none => AnalyzeOutcome.failed
  | some content =>
    let text := jsOrStr content "\x7b\x7d"
    match jsonParse text with
    | none => AnalyzeOutcome.failed
    | some result => AnalyzeOutcome.ok (fillDefaults result)

/-- `generateSongMeaning` of `server/openai.ts`: the metadata-only variant
returns the model text with a falsy-content default; a thrown model call
(outer `none`) propagates to the caller. -/
def generateSongMeaning (llmContent : Option (Option String)) : Option String :=
  match llmContent with
  | none => none
  | some content =>
    some (jsOrStr content "Unable to generate analysis for this song.")

mutual

/-- JS `String(v)` for a parsed JSON value, as used by template literals:
arrays stringify as their elements joined by commas, objects as
"[object Object]". -/
def Js.jsToString : Js → String
  | Js.null => "null"
  | Js.bool true => "true"
  | Js.bool false => "false"
  | Js.num n => toString n
  | Js.str s => s
  | Js.arr xs => jsJoin "," (jsStringElems xs)
  | Js.obj _ => "[object Object]"

/-- Element conversion of JS `Array.prototype.join`: `null` becomes the empty
string, everything else its string conversion. -/
def jsStringElems : List Js → List String
  | [] => []
  | Js.null :: xs => "" :: jsStringElems xs
  | x :: xs => Js.jsToString x :: jsStringElems xs

end

/-- The display string the route handler builds from a lyrics-grounded
analysis (`server/routes.ts` line 56): meaning, blank line, "Key themes: "
with the comma-joined themes, "Mood: ", blank line, interpretation. -/
def formatLyricsAnalysis (la : LyricsAnalysisJs) : String :=
  jsConcat [la.meaning.jsToString, "\n\nKey themes: ",
    jsJoin ", " (jsStringElems la.themes), "\nMood: ", la.mood.jsToString,
    "\n\n", la.interpretation.jsToString]

/-- Case-insensitive literal-label match at the head of a character list
(`label` is given in lowercase). -/
def labelMatchesAt : List Char → List Char → Bool
  | [], _ => true
  | _ :: _, [] => false
  | l :: ls, c :: cs => l = c.toLower ∧ labelMatchesAt ls cs

/-- Backtracking of greedy `\s*` before `(.+)`: the largest prefix length
`k` (at most the whitespace-run length passed in) whose following character
exists and is matchable by `.`. -/
def dotRunFrom (rest : List Char) : Nat → Option Nat
  | 0 =>
    match rest with
    | c :: _ => if isDotChar c then some 0 else none
    | [] => none
  | k + 1 =>
    match rest.drop (k + 1) with
    | c :: _ => if isDotChar c then some (k + 1) else dotRunFrom rest k
    | [] => dotRunFrom rest k

/-- Tail `\s*(.+)` of `/Genre:\s*(.+)/i` applied to the characters after the
label: on success, the capture and the remainder after the whole match. -/
def genreTail (rest : List Char) : Option (List Char × List Char) :=
  let w := (rest.takeWhile isJsWs).length
  match dotRunFrom rest w with
  | some k =>
    let cap := (rest.drop k).takeWhile isDotChar
    some (cap, (rest.drop k).drop cap.length)
  | none => none

/-- Tail `\s*(\d{4})` of `/Release Year:\s*(\d{4})/i`: four decimal digits
after the greedy whitespace (a shorter whitespace run cannot help, because a
digit is never whitespace). -/
def yearTail (rest : List Char) : Option (Nat × List Char) :=
  let w := (rest.takeWhile isJsWs).length
  match rest.drop w with
  | a :: b :: c :: d :: rem =>
    if a.isDigit ∧ b.isDigit ∧ c.isDigit ∧ d.isDigit then
      some ((((a.toNat - '0'.toNat) * 10 + (b.toNat - '0'.toNat)) * 10
        + (c.toNat - '0'.toNat)) * 10 + (d.toNat - '0'.toNat), rem)
    else none
  | _ => none

/-- Scan for `/Genre:\s*(.+)/gi`: returns the first capture group (the
behavior of `analysis.match`) and the input with every non-overlapping match
removed (the behavior of `analysis.replace(..., '')`).  The fuel argument
makes the recursion structural; every step consumes at least one character,
so fuel equal to the input length is always sufficient. -/
def scanGenre : Nat → List Char → Option (List Char) × List Char
  | _, [] => (none, [])
  | 0, l => (none, l)
  | fuel + 1, c :: cs =>
    if labelMatchesAt "genre:".toList (c :: cs) then
      match genreTail ((c :: cs).drop 6) with
      | some (cap, rem) =>
        let tail := scanGenre fuel rem
        (some cap, tail.2)
      | none =>
        let tail := scanGenre fuel cs
        (tail.1, c :: tail.2)
    else
      let tail := scanGenre fuel cs
      (tail.1, c :: tail.2)

/-- Scan for `/Release Year:\s*(\d{4})/gi`, in the manner of `scanGenre`. -/
def scanYear : Nat → List Char → Option Nat × List Char
  | _, [] => (none, [])
  | 0, l => (none, l)
  | fuel + 1, c :: cs =>
    if labelMatchesAt "release year:".toList (c :: cs) then
      match yearTail ((c :: cs).drop 13) with
      | some (y, rem) =>
        let tail := scanYear fuel rem
        (some y, tail.2)
      | none =>
        let tail := scanYear fuel cs
        (tail.1, c :: tail.2)
    else
      let tail := scanYear fuel cs
      (tail.1, c :: tail.2)

/-- `analysis.match(/Genre:\s*(.+)/i)`, first capture group. -/
def firstGenreCapture (s : String) : Option String :=
  (scanGenre s.toList.length s.toList).1.map String.mk

/-- `analysis.replace(/Genre:\s*.+/gi, '')`. -/
def removeGenreMatches (s : String) : String :=
  String.mk (scanGenre s.toList.length s.toList).2

/-- `analysis.match(/Release Year:\s*(\d{4})/i)`, first capture group fed to
`parseInt`. -/
def firstYearCapture (s : String) : Option Nat :=
  (scanYear s.toList.length s.toList).1

/-- `analysis.replace(/Release Year:\s*\d{4}/gi, '')`. -/
def removeYearMatches (s : String) : String :=
  String.mk (scanYear s.toList.length s.toList).2

/-- A row of the `song_analyses` table (`shared/schema.ts`). -/
structure SongAnalysis where
  id : Nat
  title : String
  artist : String
  genre : Option String
  yearReleased : Option Nat
  lyricsAnalysis : String
  userId : String
  createdAt : Nat
deriving DecidableEq, Repr

/-- A row of the `favorites` table. -/
structure Favorite where
  id : Nat
  userId : String
  songAnalysisId : Nat
  createdAt : Nat
deriving DecidableEq, Repr

/-- A row of the `search_history` table (`song_analysis_id` is nullable in
the schema). -/
structure SearchHistory where
  id : Nat
  userId : String
  searchQuery : String
  songAnalysisId : Option Nat
  createdAt : Nat
deriving DecidableEq, Repr

/-- The relational store behind `DatabaseStorage`, with a serial-id counter
and a logical clock supplying the `defaultNow()` timestamps. -/
structure Store where
  analyses : List SongAnalysis
  favorites : List Favorite
  history : List SearchHistory
  nextId : Nat
  now : Nat
deriving DecidableEq, Repr

/-- `DatabaseStorage.createSongAnalysis`: insert one row, returning it. -/
def createSongAnalysis (st : Store) (title artist : String)
    (genre : Option String) (yearReleased : Option Nat)
    (lyricsAnalysis userId : String) : SongAnalysis × Store :=
  let a : SongAnalysis :=
    { id := st.nextId, title := title, artist := artist, genre := genre,
      yearReleased := yearReleased, lyricsAnalysis := lyricsAnalysis,
      userId := userId, createdAt := st.now }
  (a, { st with
          analyses := st.analyses ++ [a]
          nextId := st.nextId + 1
          now := st.now + 1 })

/-- `DatabaseStorage.addToSearchHistory`: insert one row, returning it. -/
def addToSearchHistory (st : Store) (userId searchQuery : String)
    (songAnalysisId : Option Nat) : SearchHistory × Store :=
  let h : SearchHistory :=
    { id := st.nextId, userId := userId, searchQuery := searchQuery,
      songAnalysisId := songAnalysisId, createdAt := st.now }
  (h, { st with
          history := st.history ++ [h]
          nextId := st.nextId + 1
          now := st.now + 1 })

/-- `DatabaseStorage.isFavorite`: does a row for this (user, analysis) pair
exist? -/
def isFavorite (st : Store) (userId : String) (songAnalysisId : Nat) : Bool :=
  st.favorites.any fun f => f.userId = userId ∧ f.songAnalysisId = songAnalysisId

/-- `DatabaseStorage.addToFavorites`: insert one row, returning it. -/
def addToFavorites (st : Store) (userId : String) (songAnalysisId : Nat) :
    Favorite × Store :=
  let f : Favorite :=
    { id := st.nextId, userId := userId, songAnalysisId := songAnalysisId,
      createdAt := st.now }
  (f, { st with
          favorites := st.favorites ++ [f]
          nextId := st.nextId + 1
          now := st.now + 1 })

/-- `DatabaseStorage.removeFromFavorites`: delete the rows of the pair. -/
def removeFromFavorites (st : Store) (userId : String) (songAnalysisId : Nat) :
    Store :=
  { st with favorites := st.favorites.filter fun f =>
      ¬ (f.userId = userId ∧ f.songAnalysisId = songAnalysisId) }

/-- Insertion step of the model of SQL `ORDER BY created_at DESC`. -/
def insertDescBy {α : Type} (key : α → Nat) (x : α) : List α → List α
  | [] => [x]
  | y :: ys => if key y ≤ key x then x :: y :: ys else y :: insertDescBy key x ys

/-- Model of SQL `ORDER BY created_at DESC` over the selected rows. -/
def sortDescBy {α : Type} (key : α → Nat) : List α → List α
  | [] => []
  | x :: xs => insertDescBy key x (sortDescBy key xs)

/-- `DatabaseStorage.getUserFavorites`: the user's favorites inner-joined to
their analyses, newest favorite first, with the fixed `limit(20)` of the
source. -/
def getUserFavorites (st : Store) (userId : String) :
    List (Favorite × SongAnalysis) :=
  let rows := (st.favorites.filter fun f => f.userId = userId).filterMap
    fun f => (st.analyses.find? fun a => a.id = f.songAnalysisId).map
      fun a => (f, a)
  (sortDescBy (fun r => r.1.createdAt) rows).take 20

/-- `DatabaseStorage.getUserSearchHistory` with its `limit` parameter. -/
def getUserSearchHistory (st : Store) (userId : String) (limit : Nat) :
    List SearchHistory :=
  (sortDescBy (fun h => h.createdAt)
    (st.history.filter fun h => h.userId = userId)).take limit

/-- `DatabaseStorage.getUserSongAnalyses` with its `limit` parameter
(default 50 at the storage layer; the route passes `parseInt(...) || 20`). -/
def getUserSongAnalyses (st : Store) (userId : String) (limit : Nat) :
    List SongAnalysis :=
  (sortDescBy (fun a => a.createdAt)
    (st.analyses.filter fun a => a.userId = userId)).take limit

/-- Response of the add-favorite route: 201 with the row, the 400
duplicate rejection, or the 500 of the `catch` arm. -/
inductive FavResponse where
  | created (f : Favorite)
  | alreadyFavorited
  | serverError
deriving DecidableEq, Repr

/-- `POST /api/favorites` (`server/routes.ts` lines 139-159): reject when
`isFavorite` already holds, otherwise insert. -/
def addFavoriteRoute (st : Store) (userId : String) (songAnalysisId : Nat) :
    FavResponse × Store :=
  if isFavorite st userId songAnalysisId then
    (FavResponse.alreadyFavorited, st)
  else
    let (f, st') := addToFavorites st userId songAnalysisId
    (FavResponse.created f, st')

/-- Number of favorite rows stored for a (user, analysis) pair. -/
def favCount (st : Store) (userId : String) (songAnalysisId : Nat) : Nat :=
  (st.favorites.filter fun f =>
    f.userId = userId ∧ f.songAnalysisId = songAnalysisId).length

/-- `GET /api/favorites`: the handler reads no limit from the request, so the
request's `limit` query parameter (modelled here to show its irrelevance) is
ignored and the storage method's fixed cap applies. -/
def favoritesRoute (st : Store) (userId : String)
    (_reqLimit : Option String) : List (Favorite × SongAnalysis) :=
  getUserFavorites st userId

/-- `GET /api/search/history`: `parseInt(req.query.limit) || 20`. -/
def historyRoute (st : Store) (userId : String) (reqLimit : Option String) :
    List SearchHistory :=
  getUserSearchHistory st userId (jsOrNat (reqLimit.bind parseIntNat) 20)

/-- `GET /api/songs/history`: same limit handling over the analyses table. -/
def songsHistoryRoute (st : Store) (userId : String)
    (reqLimit : Option String) : List SongAnalysis :=
  getUserSongAnalyses st userId (jsOrNat (reqLimit.bind parseIntNat) 20)

/-- Environment of one `POST /api/songs/search` request: every external
effect the handler's code consumes, made explicit. -/
structure SearchEnv where
  geniusHit : Option GeniusHit
  ovhLyrics : Option String
  lastFm : String → String → Option Enrichment
  mbRecording : Option MBRecording
  jsonParse : String → Option Js
  lyricsLlm : Option (Option String)
  metaLlm : Option (Option String)
  dbCreateOk : Bool
  dbHistoryOk : Bool

/-- Response of the search route. -/
inductive SearchResponse where
  | ok (a : SongAnalysis)
  | badRequest (msg : String)
  | notFound (msg : String)
  | serverError (msg : String)
deriving DecidableEq, Repr

/-- The Analysis Engine step of the search route (`server/routes.ts` lines
46-65): dispatch on the resolved song's lyrics, producing the analysis
display string, or `none` when the selected variant threw. -/
def analysisStep (finalSongInfo : SongInfo) (env : SearchEnv) : Option String :=
  match chooseAnalysisVariant finalSongInfo with
  | AnalysisVariant.lyricsGrounded =>
    match analyzeLyrics env.jsonParse env.lyricsLlm with
    | AnalyzeOutcome.ok la => some (formatLyricsAnalysis la)
    | AnalyzeOutcome.failed => none
  | AnalysisVariant.metadataOnly => generateSongMeaning env.metaLlm

/-- Metadata extraction and persistence tail of the search route
(`server/routes.ts` lines 67-97): pull `Genre:` / `Release Year:` out of the
analysis text (falling back to the resolved song's values, with falsy values
stored as null), strip those lines, then `createSongAnalysis` followed —
only on its success — by `addToSearchHistory`.  A failed write lands in the
handler's `catch`, answering 500 "Failed to analyze song", with every later
write skipped. -/
def persistSearchResult (st : Store) (userId query : String)
    (finalSongInfo : SongInfo) (analysis : String)
    (dbCreateOk dbHistoryOk : Bool) : SearchResponse × Store :=
  let extractedGenre :=
    match firstGenreCapture analysis with
    | some g => some (jsTrim g)
    | none => finalSongInfo.genre
  let extractedYear :=
    match firstYearCapture analysis with
    | some y => some y
    | none => finalSongInfo.year
  let cleanedAnalysis :=
    jsTrim (removeYearMatches (removeGenreMatches analysis))
  if dbCreateOk then
    let (songAnalysis, st1) := createSongAnalysis st
      finalSongInfo.title finalSongInfo.artist
      (if jsTruthyStr extractedGenre then extractedGenre else none)
      (if jsTruthyNat extractedYear then extractedYear else none)
      cleanedAnalysis userId
    if dbHistoryOk then
      let (_, st2) := addToSearchHistory st1 userId query (some songAnalysis.id)
      (SearchResponse.ok songAnalysis, st2)
    else
      (SearchResponse.serverError "Failed to analyze song", st1)
  else
    (SearchResponse.serverError "Failed to analyze song", st)

/-- `POST /api/songs/search` (`server/routes.ts` lines 26-105).  In order:
the query-presence guard, `searchSong` on the trimmed query, the
`getSongDetails` call merged by object spread, the dispatch on
`finalSongInfo.lyrics`, metadata extraction from the analysis text, then
`createSongAnalysis` followed by `addToSearchHistory`.  A thrown model call
or database write lands in the `catch` arm, which answers 500
"Failed to analyze song" — and skips every later write. -/
def handleSearch (st : Store) (userId : String) (body : Option String)
    (env : SearchEnv) : SearchResponse × Store :=
  match body with
  | none => (SearchResponse.badRequest "Query is required", st)
  | some query =>
    if query = "" then (SearchResponse.badRequest "Query is required", st)
    else
      match searchSong (jsTrim query) env.geniusHit env.ovhLyrics env.lastFm with
      | none => (SearchResponse.notFound "Song not found", st)
      | some songInfo =>
        let finalSongInfo := mergeSpread songInfo
          (getSongDetails songInfo.title songInfo.artist env.mbRecording)
        match analysisStep finalSongInfo env with
        | none => (SearchResponse.serverError "Failed to analyze song", st)
        | some analysis =>
          persistSearchResult st userId query finalSongInfo analysis
            env.dbCreateOk env.dbHistoryOk

/-- A minimal stand-in for the runtime `JSON.parse` used to instantiate
theorems at concrete inputs: it recognizes only the empty-object source text
and rejects everything else. -/
def jsonParseStub : String → Option Js :=
  fun s => if s = "\x7b\x7d" then some (Js.obj []) else none

/-! ## Helper lemmas -/

lemma mem_insertDescBy {α : Type} (key : α → Nat) (x a : α) (l : List α) :
    a ∈ insertDescBy key x l ↔ a = x ∨ a ∈ l := by
  induction l with
  | nil => simp [insertDescBy]
  | cons y ys ih =>
    by_cases h : key y ≤ key x
    · simp [insertDescBy, h]
    · simp only [insertDescBy, if_neg h, List.mem_cons, ih]
      tauto

lemma pairwise_insertDescBy {α : Type} (key : α → Nat) (x : α) (l : List α)
    (h : l.Pairwise fun a b => key b ≤ key a) :
    (insertDescBy key x l).Pairwise fun a b => key b ≤ key a := by
  induction l with
  | nil => simp [insertDescBy]
  | cons y ys ih =>
    rw [List.pairwise_cons] at h
    by_cases hk : key y ≤ key x
    · rw [insertDescBy, if_pos hk, List.pairwise_cons]
      refine ⟨?_, List.pairwise_cons.mpr h⟩
      intro b hb
      rcases List.mem_cons.mp hb with rfl | hb
      · exact hk
      · exact (h.1 b hb).trans hk
    · rw [insertDescBy, if_neg hk, List.pairwise_cons]
      refine ⟨?_, ih h.2⟩
      intro b hb
      rcases (mem_insertDescBy key x b ys).mp hb with rfl | hb
      · exact Nat.le_of_not_le hk
      · exact h.1 b hb

lemma pairwise_sortDescBy {α : Type} (key : α → Nat) (l : List α) :
    (sortDescBy key l).Pairwise fun a b => key b ≤ key a := by
  induction l with
  | nil => simp [sortDescBy]
  | cons x xs ih => exact pairwise_insertDescBy key x (sortDescBy key xs) ih

lemma extractSongInfo_isSome (q : String) : (extractSongInfo q).isSome = true := by
  unfold extractSongInfo
  cases h : (parseQuery q).artist with
  | none => simp [h]
  | some artist =>
    simp only [h]
    split <;> simp

lemma searchSong_isSome (q : String) (g : Option GeniusHit) (o : Option String)
    (lfm : String → String → Option Enrichment) :
    (searchSong q g o lfm).isSome = true := by
  unfold searchSong
  cases searchGenius g with
  | some _ => simp
  | none =>
    dsimp only
    cases searchLyricsOvh q o with
    | some _ => simp
    | none => exact extractSongInfo_isSome q

lemma isFavorite_false_of_favCount_zero (st : Store) (u : String) (aid : Nat)
    (h : favCount st u aid = 0) : isFavorite st u aid = false := by
  unfold favCount at h
  rw [List.length_eq_zero, List.filter_eq_nil_iff] at h
  unfold isFavorite
  rw [List.any_eq_false]
  exact h

lemma isFavorite_true_of_mem (st : Store) (u : String) (aid : Nat)
    (f : Favorite) (hf : f ∈ st.favorites) (h1 : f.userId = u)
    (h2 : f.songAnalysisId = aid) : isFavorite st u aid = true := by
  unfold isFavorite
  rw [List.any_eq_true]
  exact ⟨f, hf, by simp [h1, h2]⟩

/-! ## Claim theorems -/

/-- C6 (confirmed): for every query containing " - ", `parseQuery` splits on
the first occurrence only — the part before it (trimmed) is the artist and
everything after it, rejoined with " - ", is the title; this rule fires
before the "title by artist" rule, so "Sia - Chandelier by Adele" resolves
via the dash rule; and "Sia - Chandelier - Live" parses to artist "Sia",
title "Chandelier - Live". -/
theorem C6_dash_rule_first_split :
    (∀ (q p0 p1 : String) (rest : List String),
      jsSplit (jsTrim q) " - " = p0 :: p1 :: rest →
      parseQuery q =
        { artist := some (jsTrim p0),
          title := jsTrim (jsJoin " - " (p1 :: rest)) }) ∧
    parseQuery "Sia - Chandelier - Live" =
      { artist := some "Sia", title := "Chandelier - Live" } ∧
    parseQuery "Sia - Chandelier by Adele" =
      { artist := some "Sia", title := "Chandelier by Adele" } := by
  refine ⟨?_, by decide, by decide⟩
  intro q p0 p1 rest h
  simp only [parseQuery]
  rw [h]

/-- Witness for C6: a concrete three-segment query, with each hypothesis of
the theorem discharged by evaluation. -/
theorem C6_dash_rule_witness :
    jsSplit (jsTrim "a - b - c") " - " = ["a", "b", "c"] ∧
    parseQuery "a - b - c" =
      { artist := some (jsTrim "a"), title := jsTrim (jsJoin " - " ["b", "c"]) } :=
  ⟨by decide, C6_dash_rule_first_split.1 "a - b - c" "a" "b" ["c"] (by decide)⟩

/-- C7 (confirmed): the lyrics-grounded variant replaces every missing
key — and a falsy or non-array malformed value — by its documented default,
and a model response of "{}" (the empty JSON object) produces exactly the
all-defaults analysis. -/
theorem C7_lyrics_grounded_defaults :
    (∀ r : Js, r.getField "meaning" = none →
      (fillDefaults r).meaning =
        Js.str "Unable to analyze the meaning of this song.") ∧
    (∀ r v : Js, r.getField "meaning" = some v → v.truthy = false →
      (fillDefaults r).meaning =
        Js.str "Unable to analyze the meaning of this song.") ∧
    (∀ r : Js, (∀ elems : List Js, r.getField "themes" ≠ some (Js.arr elems)) →
      (fillDefaults r).themes = []) ∧
    (∀ r : Js, r.getField "mood" = none →
      (fillDefaults r).mood = Js.str "Unknown") ∧
    (∀ r : Js, r.getField "interpretation" = none →
      (fillDefaults r).interpretation =
        Js.str "No additional interpretation available.") ∧
    (∀ parse : String → Option Js, parse "\x7b\x7d" = some (Js.obj []) →
      analyzeLyrics parse (some (some "\x7b\x7d")) = AnalyzeOutcome.ok
        { meaning := Js.str "Unable to analyze the meaning of this song."
          themes := []
          mood := Js.str "Unknown"
          interpretation := Js.str "No additional interpretation available." }) := by
  refine ⟨?_, ?_, ?_, ?_, ?_, ?_⟩
  · intro r h
    simp [fillDefaults, jsOrJs, h]
  · intro r v h hv
    simp [fillDefaults, jsOrJs, h, hv]
  · intro r h
    dsimp only [fillDefaults]
    split
    · next elems heq => exact absurd heq (h elems)
    · rfl
  · intro r h
    simp [fillDefaults, jsOrJs, h]
  · intro r h
    simp [fillDefaults, jsOrJs, h]
  · intro parse hp
    simp only [analyzeLyrics]
    have e : jsOrStr (some "\x7b\x7d") "\x7b\x7d" = "\x7b\x7d" := by decide
    rw [e, hp]
    rfl

/-- Witness for C7: the stub parser recognizes "{}", and the produced result
is the all-defaults record. -/
theorem C7_defaults_witness :
    analyzeLyrics jsonParseStub (some (some "\x7b\x7d")) = AnalyzeOutcome.ok
      { meaning := Js.str "Unable to analyze the meaning of this song."
        themes := []
        mood := Js.str "Unknown"
        interpretation := Js.str "No additional interpretation available." } :=
  C7_lyrics_grounded_defaults.2.2.2.2.2 jsonParseStub rfl

/-- C5 counterexample: a nonempty model response that is not parseable as
JSON makes `analyzeLyrics` throw (the rethrown "Failed to analyze lyrics"
error), instead of degrading to the all-defaults result as the claim
states. -/
theorem C5_counterexample :
    jsonParseStub "not json" = none ∧
    analyzeLyrics jsonParseStub (some (some "not json")) =
      AnalyzeOutcome.failed :=
  ⟨rfl, rfl⟩

/-- C5 (amended): only an absent or empty model content degrades to the
defaults (it is parsed as "{}"); a nonempty content that fails JSON parsing
propagates out of `analyzeLyrics` as an error, which the search route turns
into the 500 "Failed to analyze song" response. -/
theorem C5_parse_failure_propagates :
    (∀ (parse : String → Option Js) (content : String),
      content ≠ "" → parse content = none →
      analyzeLyrics parse (some (some content)) = AnalyzeOutcome.failed) ∧
    (∀ parse : String → Option Js, parse "\x7b\x7d" = some (Js.obj []) →
      analyzeLyrics parse (some none) =
        AnalyzeOutcome.ok (fillDefaults (Js.obj []))) ∧
    (∀ (st : Store) (u q : String) (env : SearchEnv) (si : SongInfo),
      q ≠ "" →
      searchSong (jsTrim q) env.geniusHit env.ovhLyrics env.lastFm = some si →
      chooseAnalysisVariant
        (mergeSpread si (getSongDetails si.title si.artist env.mbRecording)) =
        AnalysisVariant.lyricsGrounded →
      analyzeLyrics env.jsonParse env.lyricsLlm = AnalyzeOutcome.failed →
      handleSearch st u (some q) env =
        (SearchResponse.serverError "Failed to analyze song", st)) := by
  refine ⟨?_, ?_, ?_⟩
  · intro parse content hne hp
    simp only [analyzeLyrics]
    have e : jsOrStr (some content) "\x7b\x7d" = content := by
      simp [jsOrStr, hne]
    rw [e, hp]
  · intro parse hp
    simp only [analyzeLyrics, jsOrStr]
    rw [hp]
  · intro st u q env si hq hsi hv ha
    simp only [handleSearch, analysisStep, if_neg hq, hsi, hv, ha]

/-- Witness for C5: the amended first clause at the stub parser and the
concrete unparseable content. -/
theorem C5_propagation_witness :
    analyzeLyrics jsonParseStub (some (some "not json")) =
      AnalyzeOutcome.failed :=
  C5_parse_failure_propagates.1 jsonParseStub "not json" (by decide) rfl

/-- C3 counterexample: a resolved song whose lyrics field holds exactly the
"Lyrics not found" sentinel is dispatched to the Lyrics-Grounded variant,
not to the Metadata-Only variant as the claim states. -/
theorem C3_counterexample :
    chooseAnalysisVariant ⟨"T", "A", none, none, some lyricsNotFoundSentinel⟩ =
      AnalysisVariant.lyricsGrounded ∧
    AnalysisVariant.lyricsGrounded ≠ AnalysisVariant.metadataOnly := by
  decide

/-- C3 (amended): the dispatch tests only JS truthiness of the lyrics field —
the Metadata-Only variant runs exactly when lyrics are absent or the empty
string, and any other string (the "Lyrics not found" sentinel included)
routes to the Lyrics-Grounded variant. -/
theorem C3_dispatch_is_truthiness :
    ∀ s : SongInfo,
      (chooseAnalysisVariant s = AnalysisVariant.metadataOnly ↔
        (s.lyrics = none ∨ s.lyrics = some "")) ∧
      (s.lyrics = some lyricsNotFoundSentinel →
        chooseAnalysisVariant s = AnalysisVariant.lyricsGrounded) := by
  intro s
  constructor
  · cases h : s.lyrics with
    | none => simp [chooseAnalysisVariant, jsTruthyStr, h]
    | some l =>
      by_cases hl : l = "" <;>
        simp [chooseAnalysisVariant, jsTruthyStr, h, hl]
  · intro h
    simp [chooseAnalysisVariant, jsTruthyStr, h, lyricsNotFoundSentinel]

/-- Witness for C3: the sentinel-bearing song from the amended theorem. -/
theorem C3_sentinel_witness :
    chooseAnalysisVariant ⟨"T", "A", none, none, some lyricsNotFoundSentinel⟩ =
      AnalysisVariant.lyricsGrounded :=
  (C3_dispatch_is_truthiness ⟨"T", "A", none, none, some lyricsNotFoundSentinel⟩).2
    rfl

/-- C1 counterexample: a song already carrying year 1999 and genre "Rock"
from earlier steps, merged with a canonical MusicBrainz recording dated
2005 with no tags, ends with year 2005 and no genre — the canonical
provider's values replaced fields that were already set. -/
theorem C1_counterexample :
    mergeSpread ⟨"Song", "Artist", some "Rock", some 1999, some "la la"⟩
      (getSongDetails "Song" "Artist"
        (some ⟨none, none, some "2005-06-01", none⟩)) =
      ⟨"Song", "Artist", none, some 2005, some "la la"⟩ ∧
    (some 2005 : Option Nat) ≠ some 1999 ∧
    (none : Option String) ≠ some "Rock" := by
  decide

/-- C1 (amended): the Canonical Metadata Provider is consulted last, keyed on
the resolved (title, artist), but the route merges with object spread placing
the canonical result last, so its fields take priority: when the MusicBrainz
lookup yields a recording, the final title/artist/genre/year are exactly the
canonical values (genre/year possibly absent, erasing earlier values); the
earlier record survives unchanged only when the lookup yields nothing; the
lyrics field always survives. -/
theorem C1_canonical_merge_overrides :
    ∀ (s : SongInfo) (mb : Option MBRecording),
      (mergeSpread s (getSongDetails s.title s.artist mb)).lyrics = s.lyrics ∧
      (mb = none → mergeSpread s (getSongDetails s.title s.artist mb) = s) ∧
      (∀ r : MBRecording, mb = some r →
        mergeSpread s (getSongDetails s.title s.artist mb) =
          { title := jsOrStr r.title s.title
            artist := jsOrStr r.firstArtistCreditName s.artist
            genre := r.firstTagName
            year :=
              match r.firstReleaseDate with
              | some d =>
                if d = "" then none
                else parseIntNat (String.mk (d.toList.take 4))
              | none => none
            lyrics := s.lyrics }) := by
  intro s mb
  refine ⟨?_, ?_, ?_⟩
  · cases mb <;> simp [mergeSpread, getSongDetails]
  · intro h
    subst h
    rfl
  · intro r h
    subst h
    rfl

/-- Witness for C1: with no MusicBrainz recording the earlier record
survives unchanged. -/
theorem C1_spread_witness :
    mergeSpread ⟨"T", "A", some "G", some 1990, some "ly"⟩
      (getSongDetails "T" "A" none) =
      ⟨"T", "A", some "G", some 1990, some "ly"⟩ :=
  (C1_canonical_merge_overrides ⟨"T", "A", some "G", some 1990, some "ly"⟩
    none).2.1 rfl

/-- C2 counterexample: on the Genius path the lyrics source supplies year
1999 (from its release date) while the Enrichment Provider supplies 2005 and
genre "Pop"; the resolved record carries the enrichment values, and the
standalone merge shows a lyrics-source genre "Rock" likewise being replaced —
the opposite priority of the claim. -/
theorem C2_counterexample :
    searchGenius (some ⟨"T", "A", some "March 1, 1999"⟩) =
      some ⟨"T", "A", none, some 1999, some geniusPlaceholderLyrics⟩ ∧
    searchSong "q" (some ⟨"T", "A", some "March 1, 1999"⟩) none
      (fun _ _ => some ⟨some "Pop", some 2005⟩) =
      some ⟨"T", "A", some "Pop", some 2005, some geniusPlaceholderLyrics⟩ ∧
    mergeGeniusWithLastFm ⟨"T", "A", some "Rock", some 1999, some "x"⟩
      (some ⟨some "Pop", some 2005⟩) =
      ⟨"T", "A", some "Pop", some 2005, some "x"⟩ ∧
    (some 2005 : Option Nat) ≠ some 1999 ∧
    (some "Pop" : Option String) ≠ some "Rock" := by
  decide

/-- C2 (amended): in the merge of a lyrics-source result with the Enrichment
Provider's result, the enrichment genre/year take priority — whenever truthy
they become the resolved values, and the lyrics-source values fill in only
otherwise; title and artist (and, on the fallback path, lyrics) always come
from the lyrics-source result. -/
theorem C2_enrichment_overrides :
    ∀ (g : SongInfo) (lfm : Option Enrichment),
      ((mergeGeniusWithLastFm g lfm).title = g.title ∧
        (mergeGeniusWithLastFm g lfm).artist = g.artist) ∧
      (jsTruthyStr (lfm.bind Enrichment.genre) = true →
        (mergeGeniusWithLastFm g lfm).genre = lfm.bind Enrichment.genre ∧
        (mergeOvhWithLastFm g lfm).genre = lfm.bind Enrichment.genre) ∧
      (jsTruthyStr (lfm.bind Enrichment.genre) = false →
        (mergeGeniusWithLastFm g lfm).genre = g.genre ∧
        (mergeOvhWithLastFm g lfm).genre = g.genre) ∧
      (jsTruthyNat (lfm.bind Enrichment.year) = true →
        (mergeGeniusWithLastFm g lfm).year = lfm.bind Enrichment.year ∧
        (mergeOvhWithLastFm g lfm).year = lfm.bind Enrichment.year) ∧
      (jsTruthyNat (lfm.bind Enrichment.year) = false →
        (mergeGeniusWithLastFm g lfm).year = g.year ∧
        (mergeOvhWithLastFm g lfm).year = g.year) ∧
      (mergeOvhWithLastFm g lfm).title = g.title ∧
      (mergeOvhWithLastFm g lfm).artist = g.artist ∧
      (mergeOvhWithLastFm g lfm).lyrics = g.lyrics := by
  intro g lfm
  refine ⟨⟨rfl, rfl⟩, ?_, ?_, ?_, ?_, rfl, rfl, rfl⟩ <;> intro h <;>
    simp [mergeGeniusWithLastFm, mergeOvhWithLastFm, jsOrOptStr, jsOrOptNat, h]

/-- Witness for C2: concrete merge where the enrichment year 2005 overrides
the lyrics-source year 1999. -/
theorem C2_priority_witness :
    (mergeGeniusWithLastFm ⟨"T", "A", none, some 1999, some "x"⟩
        (some ⟨some "Pop", some 2005⟩)).year =
      (some (⟨some "Pop", some 2005⟩ : Enrichment)).bind Enrichment.year ∧
    (mergeOvhWithLastFm ⟨"T", "A", none, some 1999, some "x"⟩
        (some ⟨some "Pop", some 2005⟩)).year =
      (some (⟨some "Pop", some 2005⟩ : Enrichment)).bind Enrichment.year :=
  (C2_enrichment_overrides ⟨"T", "A", none, some 1999, some "x"⟩
    (some ⟨some "Pop", some 2005⟩)).2.2.2.1 (by decide)

/-- C4 counterexample: a whitespace-only raw query still resolves (with an
empty title and the "Unknown Artist" default), and an empty raw query is
answered with the 400 "Query is required" validation error — in neither case
does resolution fail with the 404 NotFound the claim requires. -/
theorem C4_counterexample :
    searchSong (jsTrim " ") none none (fun _ _ => none) =
      some ⟨"", "Unknown Artist", none, none, none⟩ ∧
    handleSearch ⟨[], [], [], 0, 0⟩ "u" (some "")
        ⟨none, none, fun _ _ => none, none, fun _ => none, none, none,
          true, true⟩ =
      (SearchResponse.badRequest "Query is required", ⟨[], [], [], 0, 0⟩) := by
  constructor
  · decide
  · rfl

/-- C4 (amended): resolution never fails with NotFound — `searchSong`
returns a record for every query and environment (the 404 branch is
unreachable), the empty raw query is rejected earlier with the 400
"Query is required" error, and when no heuristic parses the query the
fallback populates the artist with "Unknown Artist" and uses the trimmed
query (possibly empty) as the title. -/
theorem C4_resolution_always_succeeds :
    (∀ (q : String) (g : Option GeniusHit) (o : Option String)
        (lfm : String → String → Option Enrichment),
      (searchSong q g o lfm).isSome = true) ∧
    (∀ (st : Store) (u : String) (env : SearchEnv),
      handleSearch st u none env =
        (SearchResponse.badRequest "Query is required", st) ∧
      handleSearch st u (some "") env =
        (SearchResponse.badRequest "Query is required", st)) ∧
    (∀ q : String, (parseQuery q).artist = none →
      extractSongInfo q =
        some ⟨jsTrim q, "Unknown Artist", none, none, none⟩) := by
  refine ⟨searchSong_isSome, ?_, ?_⟩
  · intro st u env
    exact ⟨rfl, rfl⟩
  · intro q h
    simp [extractSongInfo, h]

/-- Witness for C4: a concrete unparseable query resolves to the
"Unknown Artist" fallback record. -/
theorem C4_fallback_witness :
    extractSongInfo "hello" =
      some ⟨jsTrim "hello", "Unknown Artist", none, none, none⟩ :=
  C4_resolution_always_succeeds.2.2 "hello" (by decide)

/-- C8 (confirmed): starting from a pair that is not yet favorited, the
first add-favorite request creates exactly one favorite row, and a second
request for the same (user, analysis) pair is rejected with the duplicate
error and leaves the favorite count at 1. -/
theorem C8_duplicate_favorite_rejected :
    ∀ (st : Store) (u : String) (aid : Nat),
      favCount st u aid = 0 →
      favCount (addFavoriteRoute st u aid).2 u aid = 1 ∧
      (addFavoriteRoute (addFavoriteRoute st u aid).2 u aid).1 =
        FavResponse.alreadyFavorited ∧
      favCount (addFavoriteRoute (addFavoriteRoute st u aid).2 u aid).2 u aid =
        1 := by
  intro st u aid h0
  have hno : isFavorite st u aid = false :=
    isFavorite_false_of_favCount_zero st u aid h0
  have hr1 : (addFavoriteRoute st u aid).2 =
      { st with
          favorites := st.favorites ++ [⟨st.nextId, u, aid, st.now⟩]
          nextId := st.nextId + 1
          now := st.now + 1 } := by
    simp [addFavoriteRoute, hno, addToFavorites]
  have hc1 : favCount (addFavoriteRoute st u aid).2 u aid = 1 := by
    rw [hr1]
    unfold favCount at h0 ⊢
    simp only [List.filter_append, List.length_append, h0]
    simp
  have hmem : (⟨st.nextId, u, aid, st.now⟩ : Favorite) ∈
      ((addFavoriteRoute st u aid).2).favorites := by
    rw [hr1]
    simp
  have hyes : isFavorite (addFavoriteRoute st u aid).2 u aid = true :=
    isFavorite_true_of_mem _ u aid ⟨st.nextId, u, aid, st.now⟩ hmem rfl rfl
  set st1 := (addFavoriteRoute st u aid).2 with hst1
  refine ⟨hc1, ?_, ?_⟩
  · simp [addFavoriteRoute, hyes]
  · simpa [addFavoriteRoute, hyes] using hc1

/-- Witness for C8: the empty store with a concrete user and analysis id. -/
theorem C8_empty_store_witness :
    favCount (addFavoriteRoute ⟨[], [], [], 0, 0⟩ "u" 5).2 "u" 5 = 1 ∧
    (addFavoriteRoute (addFavoriteRoute ⟨[], [], [], 0, 0⟩ "u" 5).2 "u" 5).1 =
      FavResponse.alreadyFavorited ∧
    favCount
      (addFavoriteRoute (addFavoriteRoute ⟨[], [], [], 0, 0⟩ "u" 5).2 "u" 5).2
      "u" 5 = 1 :=
  C8_duplicate_favorite_rejected ⟨[], [], [], 0, 0⟩ "u" 5 (by decide)

/-- C10 (confirmed): the favorites listing returns at most 20 rows, newest
favorite first; the route reads no limit from the request, so any
caller-supplied limit is ignored and the listing equals the fixed capped
query — unlike the history routes, whose limit parameter defaults to 20
when absent. -/
theorem C10_favorites_capped_at_20 :
    ∀ (st : Store) (u : String),
      (getUserFavorites st u).length ≤ 20 ∧
      List.Pairwise (fun x y => y.1.createdAt ≤ x.1.createdAt)
        (getUserFavorites st u) ∧
      (∀ l1 l2 : Option String, favoritesRoute st u l1 = favoritesRoute st u l2) ∧
      favoritesRoute st u (some "1000") = getUserFavorites st u ∧
      historyRoute st u none = getUserSearchHistory st u 20 := by
  intro st u
  refine ⟨?_, ?_, fun l1 l2 => rfl, rfl, rfl⟩
  · exact List.length_take_le 20 _
  · exact (pairwise_sortDescBy _ _).sublist (List.take_sublist 20 _)

lemma persistSearchResult_history (st : Store) (u q : String)
    (fsi : SongInfo) (analysis : String) (cOk hOk : Bool) :
    (cOk = false → (persistSearchResult st u q fsi analysis cOk hOk).2 = st) ∧
    (∀ h ∈ (persistSearchResult st u q fsi analysis cOk hOk).2.history,
      h ∈ st.history ∨
        ∃ a ∈ (persistSearchResult st u q fsi analysis cOk hOk).2.analyses,
          h.songAnalysisId = some a.id) := by
  cases cOk with
  | false =>
    refine ⟨fun _ => rfl, fun h hh => Or.inl ?_⟩
    simpa [persistSearchResult] using hh
  | true =>
    refine ⟨fun hco => Bool.noConfusion hco, ?_⟩
    cases hOk with
    | false =>
      intro h hh
      exact Or.inl (by simpa [persistSearchResult, createSongAnalysis] using hh)
    | true =>
      intro h hh
      simp only [persistSearchResult, createSongAnalysis,
        addToSearchHistory] at hh ⊢
      rcases List.mem_append.mp hh with hl | hr
      · exact Or.inl hl
      · right
        rw [List.mem_singleton] at hr
        subst hr
        exact ⟨_, List.mem_append_right _ (List.mem_singleton_self _), rfl⟩

/-- C9 (confirmed): a history entry is written only after the SongAnalysis
row of the same search has been created — when the analysis insert fails (or
any earlier step fails), the handler leaves the store untouched, and any
history entry the handler adds references an analysis row present in the
resulting store. -/
theorem C9_no_orphan_history :
    ∀ (st : Store) (u : String) (body : Option String) (env : SearchEnv),
      (env.dbCreateOk = false → (handleSearch st u body env).2 = st) ∧
      (∀ h ∈ (handleSearch st u body env).2.history,
        h ∈ st.history ∨
          ∃ a ∈ (handleSearch st u body env).2.analyses,
            h.songAnalysisId = some a.id) := by
  intro st u body env
  cases body with
  | none => exact ⟨fun _ => rfl, fun h hh => Or.inl hh⟩
  | some q =>
    by_cases hq : q = ""
    · refine ⟨fun _ => ?_, fun h hh => Or.inl ?_⟩
      · simp [handleSearch, hq]
      · simpa [handleSearch, hq] using hh
    · cases hs : searchSong (jsTrim q) env.geniusHit env.ovhLyrics env.lastFm with
      | none =>
        refine ⟨fun _ => ?_, fun h hh => Or.inl ?_⟩
        · simp [handleSearch, hq, hs]
        · simpa [handleSearch, hq, hs] using hh
      | some si =>
        cases hA : analysisStep
            (mergeSpread si (getSongDetails si.title si.artist env.mbRecording))
            env with
        | none =>
          refine ⟨fun _ => ?_, fun h hh => Or.inl ?_⟩
          · simp [handleSearch, hq, hs, hA]
          · simpa [handleSearch, hq, hs, hA] using hh
        | some analysis =>
          have e : handleSearch st u (some q) env =
              persistSearchResult st u q
                (mergeSpread si (getSongDetails si.title si.artist env.mbRecording))
                analysis env.dbCreateOk env.dbHistoryOk := by
            simp [handleSearch, hq, hs, hA]
          rw [e]
          exact persistSearchResult_history st u q _ analysis _ _

/-- Witness for C9: with the database create failing, a concrete request
leaves the store untouched. -/
theorem C9_create_failure_witness :
    (handleSearch ⟨[], [], [], 0, 0⟩ "u" (some "hello")
        ⟨none, none, fun _ _ => none, none, fun _ => none, none,
          some (some "analysis text"), false, true⟩).2 =
      ⟨[], [], [], 0, 0⟩ :=
  (C9_no_orphan_history ⟨[], [], [], 0, 0⟩ "u" (some "hello")
    ⟨none, none, fun _ _ => none, none, fun _ => none, none,
      some (some "analysis text"), false, true⟩).1 rfl

end LyricSensei

/-! ## Evaluation checks of the embedding on concrete inputs -/

example : LyricSensei.parseQuery "Sia - Chandelier - Live" =
    { artist := some "Sia", title := "Chandelier - Live" } := by decide

example : LyricSensei.parseQuery "Hotel California by Eagles" =
    { artist := some "Eagles", title := "Hotel California" } := by decide

example : LyricSensei.parseQuery "Chandelier (Sia)" =
    { artist := some "Sia", title := "Chandelier" } := by decide

example : LyricSensei.parseQuery "  Stay  " =
    { artist := none, title := "Stay" } := by decide

example : LyricSensei.parseQuery "Artist: Some: Title" =
    { artist := some "Artist", title := "Some: Title" } := by decide

example : LyricSensei.searchSong "" none none (fun _ _ => none) =
    some { title := "", artist := "Unknown Artist", genre := none, year := none,
           lyrics := none } := by decide

example :
    LyricSensei.searchSong "x"
      (some ⟨"T", "A", some "March 1, 1999"⟩) none
      (fun _ _ => some ⟨some "Pop", some 2005⟩) =
    some ⟨"T", "A", some "Pop", some 2005,
          some LyricSensei.geniusPlaceholderLyrics⟩ := by decide

example :
    LyricSensei.mergeSpread
      ⟨"Song", "Artist", some "Rock", some 1999, some "la"⟩
      (LyricSensei.getSongDetails "Song" "Artist"
        (some ⟨none, none, some "2005-06-01", none⟩)) =
    ⟨"Song", "Artist", none, some 2005, some "la"⟩ := by decide

example : LyricSensei.firstGenreCapture "## Core Theme\nText\nGenre: Pop\nRelease Year: 1999" =
    some "Pop" := by decide

example : LyricSensei.firstYearCapture "## Core Theme\nText\nGenre: Pop\nRelease Year: 1999" =
    some 1999 := by decide

example :
    LyricSensei.jsTrim (LyricSensei.removeYearMatches (LyricSensei.removeGenreMatches
      "## Core Theme\nText\nGenre: Pop\nRelease Year: 1999")) =
    "## Core Theme\nText" := by decide
